import Mathlib

/-! Verification of the session state machine, idle/sleep detection, activity
log and persistence layer of `src/productivity_tracker.py` (class
`ProductivityTracker`), as a shallow embedding.

Timestamps are modelled as integers (seconds); the Python sentinel `None` on
timestamp fields is modelled with `Option`.  Truthiness tests on timestamp
fields (for example `if self.clock_in_time:`) test the `None` sentinel: real
`time.time()` values are large positive reals, so the zero-is-falsy corner of
Python truthiness is outside the modelled time range.  Python runtime errors
(an `AttributeError` on a never-assigned attribute, a `TypeError` on
arithmetic with `None`) are modelled with `Except`.  Operations return the
emitted activity-log entries alongside the new state; the UI and file system
side effects are outside the state model. -/

/-- One record appended by `log_activity`: the `event` tag and the `details`
text.  The wall-clock timestamp string of the Python dict is not modelled. -/
structure Entry where
  event : String
  details : String
  deriving DecidableEq

/-- Python runtime errors the embedded code can raise. -/
inductive PyErr where
  | attributeError (name : String)
  | typeError
  deriving DecidableEq

/-- The mutable fields of `ProductivityTracker` that the state machine, the
idle checker and the gap detector read or write. -/
structure Session where
  is_logged_in : Bool
  is_on_break : Bool
  last_activity_time : Int
  clock_in_time : Option Int
  break_start_time : Option Int
  total_active_time : Int
  total_break_time : Int
  idle_timeout_seconds : Int
  last_check_time : Option Int
  deriving DecidableEq

/-- State assigned by `__init__` (source lines 38-69) when the process starts
at time `t`.  Note that `__init__` contains no assignment to
`last_check_time`, so that attribute starts unassigned (`none`). -/
def initSession (t : Int) : Session :=
  { is_logged_in := false
    is_on_break := false
    last_activity_time := t
    clock_in_time := none
    break_start_time := none
    total_active_time := 0
    total_break_time := 0
    idle_timeout_seconds := 300
    last_check_time := none }

/-- Two-digit zero padding, as in the minute and second fields of
`str(datetime.timedelta)`. -/
def pad2 (n : Int) : String :=
  if n < 10 then "0" ++ toString n else toString n

/-- Rendering of `str(timedelta(seconds=n))` for an integer number of
seconds, used by `clock_out` for the session summary. -/
def fmtTimedelta (n : Int) : String :=
  let days := Int.fdiv n 86400
  let r := n - 86400 * days
  let core := toString (Int.fdiv r 3600) ++ ":" ++ pad2 (Int.emod (Int.fdiv r 60) 60)
      ++ ":" ++ pad2 (Int.emod r 60)
  if days = 0 then core
  else if days = 1 ∨ days = -1 then toString days ++ " day, " ++ core
  else toString days ++ " days, " ++ core

/-- `clock_in` (source lines 443-469): unconditionally (re)starts a session.
It has no state guard, does not touch `is_on_break` or `break_start_time`,
and resets both accumulators.  Emits `CLOCK_IN`. -/
def clock_in (t : Int) (s : Session) : Session × List Entry :=
  ({ s with
      is_logged_in := true
      clock_in_time := some t
      last_activity_time := t
      total_active_time := 0
      total_break_time := 0 },
   [⟨"CLOCK_IN", "Started work session"⟩])

/-- `resume_work` (source lines 489-504): guarded by `if self.is_on_break:`.
Folds the break duration, sets a fresh `clock_in_time`, and leaves
`break_start_time` untouched.  The subtraction
`time.time() - self.break_start_time` is unguarded, so a `None`
`break_start_time` would raise a `TypeError`. -/
def resume_work (t : Int) (s : Session) : Except PyErr (Session × List Entry) :=
  if s.is_on_break then
    match s.break_start_time with
    | none => .error .typeError
    | some b =>
      let break_duration := t - b
      .ok ({ s with
              total_break_time := s.total_break_time + break_duration
              is_on_break := false
              clock_in_time := some t
              last_activity_time := t },
           [⟨"BREAK_END", "Resumed work (break: " ++ toString (Int.tdiv break_duration 60) ++ "m)"⟩])
  else .ok (s, [])

/-- `take_break` (source lines 471-487): when not on break it starts one,
folding the open active period (guarded by `if self.clock_in_time:`) and
leaving `clock_in_time` untouched; when already on break it delegates to
`resume_work` (toggle semantics).  It has no logged-in guard. -/
def take_break (t : Int) (s : Session) : Except PyErr (Session × List Entry) :=
  if !s.is_on_break then
    let s1 := { s with is_on_break := true, break_start_time := some t }
    let s2 :=
      match s.clock_in_time with
      | some c => { s1 with total_active_time := s1.total_active_time + (t - c) }
      | none => s1
    .ok (s2, [⟨"BREAK_START", "Started break"⟩])
  else
    resume_work t s

/-- The accumulator folding performed at the top of `clock_out` (source lines
511-517): while on break the open break interval is folded (unguarded
subtraction), otherwise the open active interval is folded when
`clock_in_time` is set. -/
def clock_out_folded (t : Int) (s : Session) : Except PyErr Session :=
  if s.is_on_break then
    match s.break_start_time with
    | none => .error .typeError
    | some b => .ok { s with total_break_time := s.total_break_time + (t - b) }
  else
    match s.clock_in_time with
    | some c => .ok { s with total_active_time := s.total_active_time + (t - c) }
    | none => .ok s

/-- `clock_out` (source lines 506-545): returns immediately while logged out;
otherwise folds the open interval, clears the logged-in and break flags,
emits the `CLOCK_OUT` summary built from the folded totals, then resets
`clock_in_time` and both accumulators (but not `break_start_time`).  The
`auto` flag only selects a warning dialog and does not affect state. -/
def clock_out (auto : Bool) (reason : String) (t : Int) (s : Session) :
    Except PyErr (Session × List Entry) :=
  if !s.is_logged_in then .ok (s, [])
  else
    match clock_out_folded t s with
    | .error e => .error e
    | .ok sf =>
      .ok ({ sf with
              is_logged_in := false
              is_on_break := false
              clock_in_time := none
              total_active_time := 0
              total_break_time := 0 },
           [⟨"CLOCK_OUT", reason ++ " | Active: " ++ fmtTimedelta sf.total_active_time
              ++ " | Breaks: " ++ fmtTimedelta sf.total_break_time⟩])

/-- One iteration of the `check_idle_status` loop body (source lines
402-410): only while logged in and not on break, an idle interval strictly
greater than the timeout logs `IDLE_TIMEOUT` and then auto clocks out. -/
def check_idle_tick (t : Int) (s : Session) : Except PyErr (Session × List Entry) :=
  if s.is_logged_in && !s.is_on_break then
    let current_idle_time := t - s.last_activity_time
    if s.idle_timeout_seconds < current_idle_time then
      match clock_out true ("Idle timeout") t s with
      | .error e => .error e
      | .ok (s1, es) =>
        .ok (s1, ⟨"IDLE_TIMEOUT", "Idle for " ++ toString (Int.tdiv current_idle_time 60) ++ " minutes"⟩ :: es)
    else .ok (s, [])
  else .ok (s, [])

/-- One iteration of the `detect_sleep_by_time_gap` loop body (source lines
346-359).  Its first action reads `self.last_check_time`, which raises an
`AttributeError` when the attribute was never assigned; a gap above 120
seconds logs `SYSTEM_RESUME` and, while logged in, forces a clock-out naming
the gap in minutes; `last_check_time` is assigned at the end of every
iteration. -/
def detect_sleep_tick (t : Int) (s : Session) : Except PyErr (Session × List Entry) :=
  match s.last_check_time with
  | none => .error (.attributeError ("last_check_time"))
  | some lc =>
    let time_gap := t - lc
    if 120 < time_gap then
      let e : Entry := ⟨"SYSTEM_RESUME", "Detected system wake (gap: " ++ toString (Int.tdiv time_gap 60) ++ "m)"⟩
      if s.is_logged_in then
        match clock_out true ("System was sleeping (" ++ toString (Int.tdiv time_gap 60) ++ " minutes)") t s with
        | .error er => .error er
        | .ok (s1, es) => .ok ({ s1 with last_check_time := some t }, e :: es)
      else
        .ok ({ s with last_check_time := some t }, [e])
    else
      .ok ({ s with last_check_time := some t }, [])

/-- One `log_activity` append to the stored activity log (source lines
547-562): append, then trim to the last 100 entries
(`self.activity_log[-100:]`) when the length exceeds 100. -/
def log_append (log : List Entry) (e : Entry) : List Entry :=
  let l := log ++ [e]
  if 100 < l.length then l.drop (l.length - 100) else l

/-- The four transition entry points of the state machine. -/
inductive Op where
  | clockIn
  | takeBreak
  | resumeWork
  | clockOut (auto : Bool) (reason : String)
  deriving DecidableEq

/-- Dispatch one entry point at time `t`. -/
def stepOp (o : Op) (t : Int) (s : Session) : Except PyErr (Session × List Entry) :=
  match o with
  | .clockIn => .ok (clock_in t s)
  | .takeBreak => take_break t s
  | .resumeWork => resume_work t s
  | .clockOut a r => clock_out a r t s

/-- Run a timed sequence of entry-point calls, collecting emitted entries. -/
def execTrace : List (Int × Op) → Session → Except PyErr (Session × List Entry)
  | [], s => .ok (s, [])
  | (t, o) :: rest, s =>
    match stepOp o t s with
    | .error e => .error e
    | .ok (s1, es) =>
      match execTrace rest s1 with
      | .error e => .error e
      | .ok (s2, es2) => .ok (s2, es ++ es2)

/-- A proper alternation of break/resume pairs: `startBreak` at the first
component and `resumeWork` at the second component of each pair. -/
def alternation (ps : List (Int × Int)) : List (Int × Op) :=
  (ps.map (fun p => [(p.1, Op.takeBreak), (p.2, Op.resumeWork)])).flatten

/-- Direct-call edges of the program, read off the source.  Edges include
thread targets and registered UI or timer callbacks (an over-approximation of
what can run), attributed to the function that registers or starts them.
`"main"` is the `if __name__ == "__main__"` block; `"__init__"` and `"run"`
are the constructor and `ProductivityTracker.run`. -/
def calls : String → List String
  | "main" => ["set_windows_startup", "__init__", "run"]
  | "__init__" => ["load_state", "setup_ui", "check_unexpected_shutdown"]
  | "run" => ["load_log"]
  | "setup_ui" => ["refresh_log_display", "clock_in", "take_break", "clock_out",
      "update_settings", "on_closing"]
  | "check_unexpected_shutdown" => ["log_activity", "clock_in"]
  | "clock_in" => ["start_activity_monitoring", "check_idle_status", "ui_updater",
      "log_activity", "save_state"]
  | "take_break" => ["resume_work", "log_activity", "save_state"]
  | "resume_work" => ["log_activity", "save_state"]
  | "clock_out" => ["stop_activity_monitoring", "log_activity", "save_state"]
  | "check_idle_status" => ["log_activity", "clock_out"]
  | "ui_updater" => ["update_time_displays"]
  | "log_activity" => ["save_log", "refresh_log_display"]
  | "update_settings" => ["save_state"]
  | "on_closing" => ["clock_out", "cleanup_and_exit"]
  | "cleanup_and_exit" => ["stop_activity_monitoring"]
  | "start_activity_monitoring" => ["update_activity_time"]
  | "prompt_clock_in_after_resume" => ["clock_in"]
  | "setup_system_event_handlers" => ["setup_windows_handlers", "setup_macos_handlers",
      "setup_linux_handlers", "detect_sleep_by_time_gap"]
  | "setup_windows_handlers" => ["windows_message_handler", "windows_message_pump",
      "log_activity"]
  | "windows_message_handler" => ["log_activity", "clock_out", "save_state",
      "prompt_clock_in_after_resume"]
  | "setup_macos_handlers" => ["log_activity", "clock_out", "prompt_clock_in_after_resume"]
  | "setup_linux_handlers" => ["log_activity", "clock_out", "prompt_clock_in_after_resume"]
  | "detect_sleep_by_time_gap" => ["log_activity", "clock_out", "prompt_clock_in_after_resume"]
  | _ => []

/-- Transitive reachability over the call-edge relation, rooted at the
program entry point. -/
inductive Reaches : String → Prop where
  | base : Reaches ("main")
  | step {f g : String} : Reaches f → g ∈ calls f → Reaches g

/-- One breadth-first expansion of a set of visited functions. -/
def callGraphStep (seen : List String) : List String :=
  (seen ++ (seen.map calls).flatten).dedup

/-- Iterated expansion starting from the entry point. -/
def reachN : Nat → List String
  | 0 => [("main")]
  | n + 1 => callGraphStep (reachN n)

/-- The saturated set of functions reachable from the entry point. -/
def programReachable : List String := reachN 12

/-- A visited set is closed when every call edge stays inside it. -/
def closedB (L : List String) : Bool :=
  L.all (fun f => (calls f).all (fun g => decide (g ∈ L)))

/-- The saved-settings record of `tracker_config.json` as `load_state` reads
it: `is_logged_in` via `state.get` with default and `idle_timeout_minutes`
via a key-presence test (the stored `is_on_break` and `last_save` fields are
never read back). -/
structure StateRec where
  is_logged_in : Option Bool
  idle_timeout_minutes : Option Int
  deriving DecidableEq

/-- The in-memory fields the persistence layer touches.  `was_logged_in`
models the `_was_logged_in` attribute, which stays unassigned (`none`) until
`load_state` assigns it. -/
structure PersistMem where
  was_logged_in : Option Bool
  idle_timeout_seconds : Int
  activity_log : List Entry
  deriving DecidableEq

/-- Outcome of a save operation: the write went through, or the exception
handler turned the failure into a printed warning. -/
inductive SaveResult where
  | written
  | warned (msg : String)
  deriving DecidableEq

/-- `save_state` (source lines 585-597): the file write either succeeds or
raises, and the `except Exception` handler converts any raise into a printed
warning.  An `Except.error` result would model an uncaught exception. -/
def save_state (write : Except String Unit) : Except String SaveResult :=
  match write with
  | .ok _ => .ok .written
  | .error e => .ok (.warned ("Error saving state: " ++ e))

/-- `load_state` (source lines 599-610): a missing file skips the body (and
leaves `_was_logged_in` unassigned); an unreadable or unparsable file is
caught and sets `_was_logged_in = False`; a parsed record sets
`_was_logged_in` and, when the key is present, the idle timeout. -/
def load_state (file : Option (Except String StateRec)) (m : PersistMem) :
    Except String PersistMem :=
  match file with
  | none => .ok m
  | some (.error _) => .ok { m with was_logged_in := some false }
  | some (.ok st) =>
    let m1 := { m with was_logged_in := some (st.is_logged_in.getD false) }
    match st.idle_timeout_minutes with
    | some mins => .ok { m1 with idle_timeout_seconds := mins * 60 }
    | none => .ok m1

/-- `save_log` (source lines 612-618): same catch-all structure as
`save_state`. -/
def save_log (write : Except String Unit) : Except String SaveResult :=
  match write with
  | .ok _ => .ok .written
  | .error e => .ok (.warned ("Error saving log: " ++ e))

/-- `load_log` (source lines 620-628): a missing file skips the body; an
unreadable or unparsable file is caught and resets the in-memory log to
empty; a parsed file replaces the in-memory log. -/
def load_log (file : Option (Except String (List Entry))) (m : PersistMem) :
    Except String PersistMem :=
  match file with
  | none => .ok m
  | some (.error _) => .ok { m with activity_log := [] }
  | some (.ok l) => .ok { m with activity_log := l }

/-- States reachable from startup by entry-point calls each made in a state
where the transition applies (the discipline the UI button enabling
enforces). -/
inductive ReachableG : Session → Prop where
  | init (t : Int) : ReachableG (initSession t)
  | clockIn {s : Session} (t : Int) :
      ReachableG s → s.is_logged_in = false → ReachableG (clock_in t s).1
  | takeBreak {s s1 : Session} {es : List Entry} (t : Int) :
      ReachableG s → s.is_logged_in = true → s.is_on_break = false →
      take_break t s = .ok (s1, es) → ReachableG s1
  | resumeWork {s s1 : Session} {es : List Entry} (t : Int) :
      ReachableG s → s.is_on_break = true →
      resume_work t s = .ok (s1, es) → ReachableG s1
  | clockOut {s s1 : Session} {es : List Entry} (a : Bool) (r : String) (t : Int) :
      ReachableG s → s.is_logged_in = true →
      clock_out a r t s = .ok (s1, es) → ReachableG s1

/-- Reduction of `execTrace` over a successful first step. -/
lemma execTrace_cons_ok {t : Int} {o : Op} {rest : List (Int × Op)} {s s1 : Session}
    {es : List Entry} (h : stepOp o t s = .ok (s1, es)) :
    execTrace ((t, o) :: rest) s =
      match execTrace rest s1 with
      | .error e => .error e
      | .ok (s2, es2) => .ok (s2, es ++ es2) := by
  simp only [execTrace]
  rw [h]

/-- `clock_out` cannot raise while not on break: the only unguarded
subtraction sits in the on-break branch of the fold. -/
lemma clock_out_ok_of_not_break (a : Bool) (r : String) (t : Int) (s : Session)
    (h2 : s.is_on_break = false) :
    ∃ (s1 : Session) (es : List Entry), clock_out a r t s = .ok (s1, es) := by
  unfold clock_out clock_out_folded
  cases hl : s.is_logged_in
  · exact ⟨s, [], by simp⟩
  · rw [h2]
    cases hc : s.clock_in_time <;> simp

/-- `resume_work` never changes `break_start_time`. -/
lemma resume_work_preserves_bst {t : Int} {s s1 : Session} {es : List Entry}
    (h : resume_work t s = .ok (s1, es)) : s1.break_start_time = s.break_start_time := by
  unfold resume_work at h
  split at h
  · split at h
    · cases h
    · simp only [Except.ok.injEq, Prod.mk.injEq] at h
      obtain ⟨h1, h2⟩ := h
      subst h1
      rfl
  · simp only [Except.ok.injEq, Prod.mk.injEq] at h
    obtain ⟨h1, h2⟩ := h
    subst h1
    rfl

/-- `resume_work` never changes `last_check_time`. -/
lemma resume_work_preserves_lct {t : Int} {s s1 : Session} {es : List Entry}
    (h : resume_work t s = .ok (s1, es)) : s1.last_check_time = s.last_check_time := by
  unfold resume_work at h
  split at h
  · split at h
    · cases h
    · simp only [Except.ok.injEq, Prod.mk.injEq] at h
      obtain ⟨h1, h2⟩ := h
      subst h1
      rfl
  · simp only [Except.ok.injEq, Prod.mk.injEq] at h
    obtain ⟨h1, h2⟩ := h
    subst h1
    rfl

/-- The `clock_out` fold does not touch `break_start_time`. -/
lemma clock_out_folded_preserves_bst {t : Int} {s sf : Session}
    (h : clock_out_folded t s = .ok sf) : sf.break_start_time = s.break_start_time := by
  unfold clock_out_folded at h
  split at h
  · split at h
    · cases h
    · simp only [Except.ok.injEq] at h
      subst h
      rfl
  · split at h <;>
      (simp only [Except.ok.injEq] at h
       subst h
       rfl)

/-- The `clock_out` fold does not touch `last_check_time`. -/
lemma clock_out_folded_preserves_lct {t : Int} {s sf : Session}
    (h : clock_out_folded t s = .ok sf) : sf.last_check_time = s.last_check_time := by
  unfold clock_out_folded at h
  split at h
  · split at h
    · cases h
    · simp only [Except.ok.injEq] at h
      subst h
      rfl
  · split at h <;>
      (simp only [Except.ok.injEq] at h
       subst h
       rfl)

/-- `clock_out` never changes `break_start_time`: neither the fold nor the
final reset assigns it. -/
lemma clock_out_preserves_bst {a : Bool} {r : String} {t : Int} {s s1 : Session}
    {es : List Entry} (h : clock_out a r t s = .ok (s1, es)) :
    s1.break_start_time = s.break_start_time := by
  unfold clock_out at h
  split at h
  · simp only [Except.ok.injEq, Prod.mk.injEq] at h
    obtain ⟨h1, h2⟩ := h
    subst h1
    rfl
  · cases hf : clock_out_folded t s with
    | error e =>
      rw [hf] at h
      cases h
    | ok sf =>
      rw [hf] at h
      simp only [Except.ok.injEq, Prod.mk.injEq] at h
      obtain ⟨h1, h2⟩ := h
      subst h1
      simpa using clock_out_folded_preserves_bst hf

/-- `clock_out` never changes `last_check_time`. -/
lemma clock_out_preserves_lct {a : Bool} {r : String} {t : Int} {s s1 : Session}
    {es : List Entry} (h : clock_out a r t s = .ok (s1, es)) :
    s1.last_check_time = s.last_check_time := by
  unfold clock_out at h
  split at h
  · simp only [Except.ok.injEq, Prod.mk.injEq] at h
    obtain ⟨h1, h2⟩ := h
    subst h1
    rfl
  · cases hf : clock_out_folded t s with
    | error e =>
      rw [hf] at h
      cases h
    | ok sf =>
      rw [hf] at h
      simp only [Except.ok.injEq, Prod.mk.injEq] at h
      obtain ⟨h1, h2⟩ := h
      subst h1
      simpa using clock_out_folded_preserves_lct hf

/-- No transition entry point ever assigns `last_check_time`; only the gap
detector loop itself does. -/
lemma stepOp_preserves_lct {o : Op} {t : Int} {s s1 : Session} {es : List Entry}
    (h : stepOp o t s = .ok (s1, es)) : s1.last_check_time = s.last_check_time := by
  cases o with
  | clockIn =>
    simp only [stepOp, Except.ok.injEq] at h
    have h1 : (clock_in t s).1 = s1 := by rw [h]
    subst h1
    rfl
  | takeBreak =>
    simp only [stepOp] at h
    unfold take_break at h
    split at h
    · split at h <;>
        (simp only [Except.ok.injEq, Prod.mk.injEq] at h
         obtain ⟨h1, h2⟩ := h
         subst h1
         rfl)
    · exact resume_work_preserves_lct h
  | resumeWork =>
    simp only [stepOp] at h
    exact resume_work_preserves_lct h
  | clockOut a r =>
    simp only [stepOp] at h
    exact clock_out_preserves_lct h

/-- A whole trace of entry-point calls preserves `last_check_time`. -/
lemma execTrace_preserves_lct :
    ∀ (l : List (Int × Op)) (s s1 : Session) (es : List Entry),
      execTrace l s = .ok (s1, es) → s1.last_check_time = s.last_check_time := by
  intro l
  induction l with
  | nil =>
    intro s s1 es h
    simp only [execTrace, Except.ok.injEq, Prod.mk.injEq] at h
    obtain ⟨h1, h2⟩ := h
    subst h1
    rfl
  | cons p rest ih =>
    intro s s1 es h
    obtain ⟨t, o⟩ := p
    simp only [execTrace] at h
    cases hs : stepOp o t s with
    | error e =>
      rw [hs] at h
      cases h
    | ok pr =>
      obtain ⟨sm, esm⟩ := pr
      rw [hs] at h
      dsimp only at h
      cases hr : execTrace rest sm with
      | error e =>
        rw [hr] at h
        cases h
      | ok pr2 =>
        obtain ⟨s2, es2⟩ := pr2
        rw [hr] at h
        simp only [Except.ok.injEq, Prod.mk.injEq] at h
        obtain ⟨h1, h2⟩ := h
        subst h1
        rw [ih sm s2 es2 hr, stepOp_preserves_lct hs]

/-- C2 counterexample: `clock_in` while already Active is not a no-op.  From
the Active state produced by clocking in at t=0 (whose `clock_in_time` is
`some 0`), calling `clock_in` again at t=5 rewrites `clock_in_time` to
`some 5`, so the SessionState is changed, contrary to the claim that every
entry point is a safe no-op in states where it does not apply. -/
theorem C2_unguarded_counterexample :
    (clock_in 0 (initSession 0)).1.is_logged_in = true ∧
    (clock_in 0 (initSession 0)).1.clock_in_time = some 0 ∧
    (clock_in 5 (clock_in 0 (initSession 0)).1).1.clock_in_time = some 5 := by
  exact ⟨rfl, rfl, rfl⟩

/-- C2 amended: only `resume_work` (called while not OnBreak) and
`clock_out` (called while LoggedOut) are re-entrant-safe no-ops that leave
the state unchanged and emit nothing; `clock_in` and `take_break` are
unguarded. -/
theorem C2_amended_noops :
    (∀ (t : Int) (s : Session), s.is_on_break = false → resume_work t s = .ok (s, [])) ∧
    (∀ (a : Bool) (r : String) (t : Int) (s : Session), s.is_logged_in = false →
      clock_out a r t s = .ok (s, [])) := by
  constructor
  · intro t s h
    simp [resume_work, h]
  · intro a r t s h
    simp [clock_out, h]

/-- C2 amended, witness: both no-op guards exercised on the startup state. -/
theorem C2_amended_noops_witness :
    resume_work 7 (initSession 0) = .ok (initSession 0, []) ∧
    clock_out true ("Idle timeout") 7 (initSession 0) = .ok (initSession 0, []) :=
  ⟨C2_amended_noops.1 7 (initSession 0) rfl,
   C2_amended_noops.2 true ("Idle timeout") 7 (initSession 0) rfl⟩

/-- Any set of functions that contains the entry point and is closed under
the call edges contains every reachable function. -/
lemma reaches_subset_of_closed (L : List String) (hc : closedB L = true)
    (hm : ("main") ∈ L) : ∀ f, Reaches f → f ∈ L := by
  intro f h
  induction h with
  | base => exact hm
  | step hf hg ih =>
    simp only [closedB, List.all_eq_true, decide_eq_true_eq] at hc
    exact hc _ ih _ hg

/-- C4: the gap-heuristic sleep detector does not run.  The saturated set of
functions reachable from the program entry point (`programReachable`, a
closed superset of everything `Reaches` can derive) contains neither
`setup_system_event_handlers` (the only function that starts the detector
thread) nor the detector loop `detect_sleep_by_time_gap`, so the detector
never runs in any execution, contrary to the claim that it always runs. -/
theorem C4_gap_detector_unreachable :
    (∀ f, Reaches f → f ∈ programReachable) ∧
    programReachable.contains ("setup_system_event_handlers") = false ∧
    programReachable.contains ("detect_sleep_by_time_gap") = false := by
  refine ⟨reaches_subset_of_closed programReachable (by decide) (by decide), by decide, by decide⟩

/-- C4 witness: the entry point itself is in the reachable set. -/
theorem C4_gap_detector_unreachable_witness : ("main") ∈ programReachable :=
  C4_gap_detector_unreachable.1 ("main") Reaches.base

/-- C6: `clock_out` is idempotent while LoggedOut.  Any sequence of
`clock_out` calls (any times, any auto flags, any reasons) from a state with
`is_logged_in = false` returns immediately each time, leaves every state
field unchanged, and emits no log entry at all — in particular no CLOCK_OUT
entry. -/
theorem C6_clock_out_idempotent (l : List (Int × Bool × String)) (s : Session)
    (h : s.is_logged_in = false) :
    execTrace (l.map (fun p => (p.1, Op.clockOut p.2.1 p.2.2))) s = .ok (s, []) := by
  induction l with
  | nil => rfl
  | cons p l ih =>
    simp only [List.map_cons, execTrace, stepOp]
    rw [show clock_out p.2.1 p.2.2 p.1 s = .ok (s, []) by simp [clock_out, h]]
    dsimp only
    rw [ih]
    rfl

/-- C6 witness: two repeated clock-outs from the startup (LoggedOut) state. -/
theorem C6_clock_out_idempotent_witness :
    execTrace ([((0 : Int), false, ("Manual clock out")), ((5 : Int), true, ("Idle timeout"))].map
      (fun p => (p.1, Op.clockOut p.2.1 p.2.2))) (initSession 0) = .ok (initSession 0, []) :=
  C6_clock_out_idempotent [((0 : Int), false, ("Manual clock out")), ((5 : Int), true, ("Idle timeout"))]
    (initSession 0) rfl

/-- C8: calling the break command while already OnBreak is the very same
computation as calling `resume_work` directly — same resulting state, same
emitted events, same error behaviour, for every starting OnBreak state. -/
theorem C8_toggle_equals_resume (t : Int) (s : Session) (h : s.is_on_break = true) :
    take_break t s = resume_work t s := by
  simp [take_break, h]

/-- A concrete OnBreak state: clocked in at 0, break started at 100. -/
def sampleOnBreak : Session :=
  { is_logged_in := true
    is_on_break := true
    last_activity_time := 0
    clock_in_time := some 0
    break_start_time := some 100
    total_active_time := 100
    total_break_time := 0
    idle_timeout_seconds := 300
    last_check_time := none }

/-- C8 witness: the toggle on a concrete OnBreak state. -/
theorem C8_toggle_equals_resume_witness :
    take_break 400 sampleOnBreak = resume_work 400 sampleOnBreak :=
  C8_toggle_equals_resume 400 sampleOnBreak rfl

/-- C9: every persistence operation catches read/write failure and returns
normally.  `save_state`/`save_log` turn any raised write error into a printed
warning; `load_state`/`load_log` return normally on every file outcome, keep
the in-memory values when the file is missing, and fall back to the defaults
(`_was_logged_in = False`, empty log) when the read or parse raises. -/
theorem C9_persistence_never_raises :
    (∀ w : Except String Unit, ∃ r, save_state w = .ok r) ∧
    (∀ w : Except String Unit, ∃ r, save_log w = .ok r) ∧
    (∀ (f : Option (Except String StateRec)) (m : PersistMem), ∃ v, load_state f m = .ok v) ∧
    (∀ (f : Option (Except String (List Entry))) (m : PersistMem), ∃ v, load_log f m = .ok v) ∧
    (∀ m : PersistMem, load_state none m = .ok m) ∧
    (∀ (e : String) (m : PersistMem),
      load_state (some (.error e)) m = .ok { m with was_logged_in := some false }) ∧
    (∀ m : PersistMem, load_log none m = .ok m) ∧
    (∀ (e : String) (m : PersistMem),
      load_log (some (.error e)) m = .ok { m with activity_log := [] }) := by
  refine ⟨?_, ?_, ?_, ?_, fun m => rfl, fun e m => rfl, fun m => rfl, fun e m => rfl⟩
  · intro w
    cases w <;> exact ⟨_, rfl⟩
  · intro w
    cases w <;> exact ⟨_, rfl⟩
  · intro f m
    match f with
    | none => exact ⟨_, rfl⟩
    | some (.error e) => exact ⟨_, rfl⟩
    | some (.ok st) =>
      cases h : st.idle_timeout_minutes with
      | none =>
        exact ⟨{ m with was_logged_in := some (st.is_logged_in.getD false) },
          by simp [load_state, h]⟩
      | some mins =>
        exact ⟨{ m with was_logged_in := some (st.is_logged_in.getD false),
                        idle_timeout_seconds := mins * 60 },
          by simp [load_state, h]⟩
  · intro f m
    match f with
    | none => exact ⟨_, rfl⟩
    | some (.error e) => exact ⟨_, rfl⟩
    | some (.ok l) => exact ⟨_, rfl⟩

/-- C10: the first read of `last_check_time` by the gap-detector loop is
undefined, not defined as claimed.  `__init__` never assigns the attribute
and no transition entry point does either, so after any sequence of
state-machine operations from startup the first detector tick raises
`AttributeError` at `current_time - self.last_check_time`. -/
theorem C10_gap_first_read_fails (t0 t : Int) (l : List (Int × Op)) (s1 : Session)
    (es : List Entry) (h : execTrace l (initSession t0) = .ok (s1, es)) :
    detect_sleep_tick t s1 = .error (.attributeError ("last_check_time")) := by
  have hl : s1.last_check_time = none := by
    rw [execTrace_preserves_lct l (initSession t0) s1 es h]
    rfl
  unfold detect_sleep_tick
  rw [hl]

/-- C10 witness: the empty operation sequence — the very first tick after
startup fails. -/
theorem C10_gap_first_read_fails_witness :
    detect_sleep_tick 200 (initSession 0) = .error (.attributeError ("last_check_time")) :=
  C10_gap_first_read_fails 0 200 [] (initSession 0) [] rfl

/-- The idle tick "fires" when it emits an IDLE_TIMEOUT log entry. -/
def idleFires (t : Int) (s : Session) : Prop :=
  ∃ (s1 : Session) (es : List Entry), check_idle_tick t s = .ok (s1, es) ∧
    ("IDLE_TIMEOUT") ∈ es.map Entry.event

/-- C3: on an idle-check tick, the idle timeout fires exactly when the
session is Active (logged in, not on break) and `now - lastActivityAt`
strictly exceeds `idleTimeoutSeconds`; when it fires it emits one
IDLE_TIMEOUT entry followed by exactly the events of
`clock_out(auto=True, reason="Idle timeout")`; it never fires while OnBreak
or LoggedOut (the tick is then a no-op). -/
theorem C3_idle_timeout_exact (t : Int) (s : Session) :
    (idleFires t s ↔
      (s.is_logged_in = true ∧ s.is_on_break = false ∧
        s.idle_timeout_seconds < t - s.last_activity_time)) ∧
    (s.is_logged_in = true → s.is_on_break = false →
      s.idle_timeout_seconds < t - s.last_activity_time →
      ∃ (s1 : Session) (es : List Entry),
        clock_out true ("Idle timeout") t s = .ok (s1, es) ∧
        check_idle_tick t s = .ok (s1,
          ⟨"IDLE_TIMEOUT",
            "Idle for " ++ toString (Int.tdiv (t - s.last_activity_time) 60) ++ " minutes"⟩ :: es)) ∧
    (s.is_on_break = true → check_idle_tick t s = .ok (s, [])) ∧
    (s.is_logged_in = false → check_idle_tick t s = .ok (s, [])) := by
  have hfire : s.is_logged_in = true → s.is_on_break = false →
      s.idle_timeout_seconds < t - s.last_activity_time →
      ∃ (s1 : Session) (es : List Entry),
        clock_out true ("Idle timeout") t s = .ok (s1, es) ∧
        check_idle_tick t s = .ok (s1,
          ⟨"IDLE_TIMEOUT",
            "Idle for " ++ toString (Int.tdiv (t - s.last_activity_time) 60) ++ " minutes"⟩ :: es) := by
    intro h1 h2 h3
    obtain ⟨s1, es, hco⟩ := clock_out_ok_of_not_break true ("Idle timeout") t s h2
    refine ⟨s1, es, hco, ?_⟩
    simp [check_idle_tick, h1, h2, h3, hco]
  refine ⟨?_, hfire, ?_, ?_⟩
  · constructor
    · rintro ⟨s1, es, hok, hmem⟩
      cases h1 : s.is_logged_in with
      | false =>
        rw [show check_idle_tick t s = .ok (s, []) by simp [check_idle_tick, h1]] at hok
        simp only [Except.ok.injEq, Prod.mk.injEq] at hok
        obtain ⟨hs1, hes⟩ := hok
        rw [← hes] at hmem
        simp at hmem
      | true =>
        cases h2 : s.is_on_break with
        | true =>
          rw [show check_idle_tick t s = .ok (s, []) by simp [check_idle_tick, h2]] at hok
          simp only [Except.ok.injEq, Prod.mk.injEq] at hok
          obtain ⟨hs1, hes⟩ := hok
          rw [← hes] at hmem
          simp at hmem
        | false =>
          rcases lt_or_le s.idle_timeout_seconds (t - s.last_activity_time) with h3 | h3
          · exact ⟨rfl, rfl, h3⟩
          · have h4 : ¬ (s.idle_timeout_seconds < t - s.last_activity_time) := not_lt.mpr h3
            rw [show check_idle_tick t s = .ok (s, []) by
              simp [check_idle_tick, h1, h2, h4]] at hok
            simp only [Except.ok.injEq, Prod.mk.injEq] at hok
            obtain ⟨hs1, hes⟩ := hok
            rw [← hes] at hmem
            simp at hmem
    · rintro ⟨h1, h2, h3⟩
      obtain ⟨s1, es, hco, htick⟩ := hfire h1 h2 h3
      exact ⟨s1, _, htick, by simp⟩
  · intro h2
    simp [check_idle_tick, h2]
  · intro h1
    simp [check_idle_tick, h1]

/-- C3 witness: at t=301 on the state clocked in at t=0 (timeout 300), the
tick fires with the IDLE_TIMEOUT entry followed by the auto clock-out. -/
theorem C3_idle_timeout_exact_witness :
    ∃ (s1 : Session) (es : List Entry),
      clock_out true ("Idle timeout") 301 (clock_in 0 (initSession 0)).1 = .ok (s1, es) ∧
      check_idle_tick 301 (clock_in 0 (initSession 0)).1 = .ok (s1,
        ⟨"IDLE_TIMEOUT",
          "Idle for " ++ toString (Int.tdiv ((301 : Int) - (clock_in 0 (initSession 0)).1.last_activity_time) 60)
            ++ " minutes"⟩ :: es) :=
  (C3_idle_timeout_exact 301 (clock_in 0 (initSession 0)).1).2.1 rfl rfl (by decide)

/-- C5 counterexample: the reachable state reached by clockIn at t=0 then
startBreak at t=100 is OnBreak (not Active) yet still has
`clock_in_time = some 0`: `take_break` does not null `clock_in_time`, so the
claimed invariant (clockInAt set iff status is Active) fails, as does the
claim that startBreak nulls clockInAt. -/
theorem C5_invariant_counterexample :
    execTrace [((0 : Int), Op.clockIn), ((100 : Int), Op.takeBreak)] (initSession 0) =
      .ok (sampleOnBreak,
        [⟨"CLOCK_IN", "Started work session"⟩, ⟨"BREAK_START", "Started break"⟩]) ∧
    sampleOnBreak.is_on_break = true ∧
    sampleOnBreak.clock_in_time.isSome = true ∧
    (sampleOnBreak.is_logged_in && !sampleOnBreak.is_on_break) = false :=
  ⟨rfl, rfl, rfl, rfl⟩

/-- Fields of the state produced by `take_break` from a not-on-break state:
`clock_in_time` is untouched and `break_start_time` is set to now. -/
lemma take_break_not_on_break {t : Int} {s s1 : Session} {es : List Entry}
    (hb : s.is_on_break = false) (h : take_break t s = .ok (s1, es)) :
    s1.clock_in_time = s.clock_in_time ∧ s1.break_start_time = some t ∧
    s1.is_on_break = true ∧ s1.is_logged_in = s.is_logged_in := by
  unfold take_break at h
  split at h
  · split at h <;>
      (simp only [Except.ok.injEq, Prod.mk.injEq] at h
       obtain ⟨h1, h2⟩ := h
       subst h1
       exact ⟨rfl, rfl, rfl, rfl⟩)
  · rename_i hcond
    rw [hb] at hcond
    simp at hcond

/-- Fields of the state produced by a successful `resume_work` from an
on-break state: a fresh `clock_in_time` and the break flag cleared. -/
lemma resume_work_on_break {t : Int} {s s1 : Session} {es : List Entry}
    (hb : s.is_on_break = true) (h : resume_work t s = .ok (s1, es)) :
    s1.clock_in_time = some t ∧ s1.is_on_break = false ∧
    s1.is_logged_in = s.is_logged_in := by
  unfold resume_work at h
  split at h
  · split at h
    · cases h
    · simp only [Except.ok.injEq, Prod.mk.injEq] at h
      obtain ⟨h1, h2⟩ := h
      subst h1
      exact ⟨rfl, rfl, rfl⟩
  · rename_i hcond
    exact absurd hb hcond

/-- Fields of the state produced by a successful `clock_out` from a
logged-in state: both flags cleared and `clock_in_time` nulled. -/
lemma clock_out_fields {a : Bool} {r : String} {t : Int} {s s1 : Session} {es : List Entry}
    (hl : s.is_logged_in = true) (h : clock_out a r t s = .ok (s1, es)) :
    s1.is_logged_in = false ∧ s1.is_on_break = false ∧ s1.clock_in_time = none := by
  unfold clock_out at h
  split at h
  · rename_i hcond
    rw [hl] at hcond
    simp at hcond
  · cases hf : clock_out_folded t s with
    | error e =>
      rw [hf] at h
      cases h
    | ok sf =>
      rw [hf] at h
      simp only [Except.ok.injEq, Prod.mk.injEq] at h
      obtain ⟨h1, h2⟩ := h
      subst h1
      exact ⟨rfl, rfl, rfl⟩

/-- Along guarded runs, `clock_in_time` is set exactly while logged in, and
OnBreak implies logged in. -/
lemma reachableG_inv : ∀ s : Session, ReachableG s →
    s.clock_in_time.isSome = s.is_logged_in ∧
      (s.is_on_break = true → s.is_logged_in = true) := by
  intro s h
  induction h with
  | init t => exact ⟨rfl, fun hb => by cases hb⟩
  | clockIn t hr hl ih => exact ⟨rfl, fun _ => rfl⟩
  | takeBreak t hr hl hb hok ih =>
    obtain ⟨hc, hbs, hob, hli⟩ := take_break_not_on_break hb hok
    constructor
    · rw [hc, hli, ih.1]
    · intro _
      rw [hli]
      exact hl
  | resumeWork t hr hb hok ih =>
    obtain ⟨hc, hob, hli⟩ := resume_work_on_break hb hok
    constructor
    · rw [hc, hli]
      exact (ih.2 hb).symm
    · intro h2
      rw [hob] at h2
      cases h2
  | clockOut a r t hr hl hok ih =>
    obtain ⟨h1, h2, h3⟩ := clock_out_fields hl hok
    constructor
    · rw [h3, h1]
      rfl
    · intro hcontra
      rw [h2] at hcontra
      cases hcontra

/-- C5 amended: in every state reachable by operations each invoked where
it applies, `clock_in_time` is set iff the user is logged in (Active or
OnBreak, not Active alone); `resume_work` and `clock_out` never null
`break_start_time` (it stays set from the last break); `take_break` leaves
`clock_in_time` untouched; `clock_out` is the only operation that nulls
`clock_in_time`. -/
theorem C5_amended_invariant :
    (∀ s : Session, ReachableG s → s.clock_in_time.isSome = s.is_logged_in) ∧
    (∀ (t : Int) (s s1 : Session) (es : List Entry),
      resume_work t s = .ok (s1, es) → s1.break_start_time = s.break_start_time) ∧
    (∀ (a : Bool) (r : String) (t : Int) (s s1 : Session) (es : List Entry),
      clock_out a r t s = .ok (s1, es) → s1.break_start_time = s.break_start_time) ∧
    (∀ (t : Int) (s s1 : Session) (es : List Entry), s.is_on_break = false →
      take_break t s = .ok (s1, es) →
      s1.clock_in_time = s.clock_in_time ∧ s1.break_start_time = some t) ∧
    (∀ (a : Bool) (r : String) (t : Int) (s s1 : Session) (es : List Entry),
      s.is_logged_in = true → clock_out a r t s = .ok (s1, es) → s1.clock_in_time = none) :=
  ⟨fun s h => (reachableG_inv s h).1,
   fun _ _ _ _ h => resume_work_preserves_bst h,
   fun _ _ _ _ _ _ h => clock_out_preserves_bst h,
   fun _ _ _ _ hb h => ⟨(take_break_not_on_break hb h).1, (take_break_not_on_break hb h).2.1⟩,
   fun _ _ _ _ _ _ hl h => (clock_out_fields hl h).2.2⟩

/-- State after `resume_work` at t=400 from `sampleOnBreak`. -/
def sampleResumed : Session :=
  { is_logged_in := true
    is_on_break := false
    last_activity_time := 400
    clock_in_time := some 400
    break_start_time := some 100
    total_active_time := 100
    total_break_time := 300
    idle_timeout_seconds := 300
    last_check_time := none }

/-- State after `clock_out` at t=500 from `sampleResumed`. -/
def sampleOut : Session :=
  { is_logged_in := false
    is_on_break := false
    last_activity_time := 400
    clock_in_time := none
    break_start_time := some 100
    total_active_time := 0
    total_break_time := 0
    idle_timeout_seconds := 300
    last_check_time := none }

/-- C5 amended, witness: each conjunct applied to concrete states of the
scenario clockIn 0, startBreak 100, resumeWork 400, clockOut 500. -/
theorem C5_amended_invariant_witness :
    (initSession 0).clock_in_time.isSome = (initSession 0).is_logged_in ∧
    sampleResumed.break_start_time = sampleOnBreak.break_start_time ∧
    sampleOut.break_start_time = sampleResumed.break_start_time ∧
    (sampleOnBreak.clock_in_time = (clock_in 0 (initSession 0)).1.clock_in_time ∧
      sampleOnBreak.break_start_time = some 100) ∧
    sampleOut.clock_in_time = none :=
  ⟨C5_amended_invariant.1 (initSession 0) (ReachableG.init 0),
   C5_amended_invariant.2.1 400 sampleOnBreak sampleResumed
     [⟨"BREAK_END", "Resumed work (break: 5m)"⟩] rfl,
   C5_amended_invariant.2.2.1 false ("Manual clock out") 500 sampleResumed sampleOut
     [⟨"CLOCK_OUT", "Manual clock out | Active: 0:03:20 | Breaks: 0:05:00"⟩] rfl,
   C5_amended_invariant.2.2.2.1 100 (clock_in 0 (initSession 0)).1 sampleOnBreak
     [⟨"BREAK_START", "Started break"⟩] rfl rfl,
   C5_amended_invariant.2.2.2.2 false ("Manual clock out") 500 sampleResumed sampleOut
     [⟨"CLOCK_OUT", "Manual clock out | Active: 0:03:20 | Breaks: 0:05:00"⟩] rfl rfl⟩

/-- One append-then-trim step always yields the last 100 entries of the
appended list. -/
lemma log_append_drop (l : List Entry) (e : Entry) :
    log_append l e = (l ++ [e]).drop ((l ++ [e]).length - 100) := by
  simp only [log_append]
  split
  · rfl
  · rename_i hlen
    have h0 : (l ++ [e]).length - 100 = 0 := by omega
    rw [h0, List.drop_zero]

/-- Folding `log_append` over new entries, starting from an already-trimmed
log, yields exactly the trim of the whole appended sequence. -/
lemma foldl_log_append (es : List Entry) : ∀ l : List Entry,
    es.foldl log_append (l.drop (l.length - 100)) =
      (l ++ es).drop ((l ++ es).length - 100) := by
  induction es with
  | nil =>
    intro l
    simp
  | cons e es ih =>
    intro l
    rw [List.foldl_cons, log_append_drop]
    have htrim : ((l.drop (l.length - 100)) ++ [e]).drop
        (((l.drop (l.length - 100)) ++ [e]).length - 100) =
        (l ++ [e]).drop ((l ++ [e]).length - 100) := by
      rcases le_or_lt l.length 100 with hle | hgt
      · have h0 : l.length - 100 = 0 := by omega
        rw [h0, List.drop_zero]
      · have hk : l.length - 100 ≤ l.length := by omega
        rw [← List.drop_append_of_le_length hk, List.drop_drop]
        have harith : l.length - 100 + (((l ++ [e]).drop (l.length - 100)).length - 100) =
            (l ++ [e]).length - 100 := by
          simp only [List.length_drop, List.length_append, List.length_cons, List.length_nil]
          omega
        rw [harith]
    rw [htrim, ih (l ++ [e])]
    have happ : (l ++ [e]) ++ es = l ++ e :: es := by simp
    rw [happ]

/-- C7: the activity log stored by `log_activity` never exceeds 100 entries,
and after any sequence of at least 100 appends (for example 150) it holds
exactly the most recently appended 100 entries in their original relative
order — the suffix `es.drop (es.length - 100)` of the append sequence. -/
theorem C7_log_cap :
    (∀ es : List Entry, (es.foldl log_append []).length ≤ 100) ∧
    (∀ es : List Entry, 100 ≤ es.length →
      es.foldl log_append [] = es.drop (es.length - 100)) := by
  have key : ∀ es : List Entry, es.foldl log_append [] = es.drop (es.length - 100) := by
    intro es
    have h := foldl_log_append es []
    simpa using h
  constructor
  · intro es
    rw [key es]
    simp only [List.length_drop]
    omega
  · intro es h
    exact key es

/-- C7 witness: 150 identical appends leave exactly the last 100. -/
theorem C7_log_cap_witness :
    100 ≤ (List.replicate 150 (⟨"EVT", "d"⟩ : Entry)).length ∧
    (List.replicate 150 (⟨"EVT", "d"⟩ : Entry)).foldl log_append [] =
      (List.replicate 150 (⟨"EVT", "d"⟩ : Entry)).drop
        ((List.replicate 150 (⟨"EVT", "d"⟩ : Entry)).length - 100) :=
  ⟨by simp, C7_log_cap.2 (List.replicate 150 (⟨"EVT", "d"⟩ : Entry)) (by simp)⟩

/-- `execTrace` splits over list append when the first part succeeds. -/
lemma execTrace_append_ok {l1 l2 : List (Int × Op)} {s s1 : Session}
    {es1 : List Entry} (h : execTrace l1 s = .ok (s1, es1)) :
    execTrace (l1 ++ l2) s =
      match execTrace l2 s1 with
      | .error e => .error e
      | .ok (s2, es2) => .ok (s2, es1 ++ es2) := by
  induction l1 generalizing s es1 with
  | nil =>
    simp only [execTrace, Except.ok.injEq, Prod.mk.injEq] at h
    obtain ⟨h1, h2⟩ := h
    rw [List.nil_append, ← h1, ← h2]
    cases hr : execTrace l2 s with
    | error e => rfl
    | ok pr =>
      obtain ⟨s2, es2⟩ := pr
      rfl
  | cons p l1 ih =>
    obtain ⟨t, o⟩ := p
    simp only [execTrace] at h
    cases hs : stepOp o t s with
    | error e =>
      rw [hs] at h
      simp at h
    | ok pr =>
      obtain ⟨sm, esm⟩ := pr
      rw [hs] at h
      dsimp only at h
      cases hr : execTrace l1 sm with
      | error e =>
        rw [hr] at h
        simp at h
      | ok pr2 =>
        obtain ⟨s2, es2⟩ := pr2
        rw [hr] at h
        simp only [Except.ok.injEq, Prod.mk.injEq] at h
        obtain ⟨h1, h2⟩ := h
        subst h1
        subst h2
        rw [List.cons_append, execTrace_cons_ok hs, ih hr]
        cases hq : execTrace l2 s2 with
        | error e => rfl
        | ok pr3 =>
          obtain ⟨s3, es3⟩ := pr3
          dsimp only
          rw [List.append_assoc]

/-- The alternation of the empty pair list is the empty trace. -/
lemma alternation_nil : alternation [] = [] := rfl

/-- Unfolding of `alternation` over one break/resume pair. -/
lemma alternation_cons (b r : Int) (ps : List (Int × Int)) :
    alternation ((b, r) :: ps) =
      (b, Op.takeBreak) :: (r, Op.resumeWork) :: alternation ps := rfl

/-- Executing any proper alternation of break/resume pairs from an Active
state with `clock_in_time = some c` succeeds, ends Active with some
`clock_in_time = some c2`, and preserves the quantity
`total_active_time + total_break_time - clock_in_time`. -/
lemma alternation_exec (ps : List (Int × Int)) :
    ∀ (s : Session) (c : Int), s.is_logged_in = true → s.is_on_break = false →
      s.clock_in_time = some c →
      ∃ (s2 : Session) (es : List Entry) (c2 : Int),
        execTrace (alternation ps) s = .ok (s2, es) ∧
        s2.is_logged_in = true ∧ s2.is_on_break = false ∧ s2.clock_in_time = some c2 ∧
        s2.total_active_time + s2.total_break_time - c2 =
          s.total_active_time + s.total_break_time - c := by
  induction ps with
  | nil =>
    intro s c h1 h2 hc
    exact ⟨s, [], c, rfl, h1, h2, hc, rfl⟩
  | cons p ps ih =>
    intro s c h1 h2 hc
    obtain ⟨b, r⟩ := p
    have hTB : take_break b s = .ok ({ s with is_on_break := true, break_start_time := some b, total_active_time := s.total_active_time + (b - c) }, [⟨"BREAK_START", "Started break"⟩]) := by
      simp [take_break, h2, hc]
    have hRW : resume_work r { s with is_on_break := true, break_start_time := some b, total_active_time := s.total_active_time + (b - c) } = .ok ({ s with is_on_break := false, break_start_time := some b, total_active_time := s.total_active_time + (b - c), total_break_time := s.total_break_time + (r - b), clock_in_time := some r, last_activity_time := r }, [⟨"BREAK_END", "Resumed work (break: " ++ toString (Int.tdiv (r - b) 60) ++ "m)"⟩]) := by
      simp [resume_work]
    obtain ⟨s2, es, c2, hexec, g1, g2, g3, g4⟩ :=
      ih { s with is_on_break := false, break_start_time := some b, total_active_time := s.total_active_time + (b - c), total_break_time := s.total_break_time + (r - b), clock_in_time := some r, last_activity_time := r } r h1 rfl rfl
    refine ⟨s2,
      ⟨"BREAK_START", "Started break"⟩ ::
        ⟨"BREAK_END", "Resumed work (break: " ++ toString (Int.tdiv (r - b) 60) ++ "m)"⟩ :: es,
      c2, ?_, g1, g2, g3, ?_⟩
    · rw [alternation_cons]
      rw [execTrace_cons_ok (show stepOp Op.takeBreak b s = _ from hTB)]
      rw [execTrace_cons_ok (show stepOp Op.resumeWork r _ = _ from hRW)]
      rw [hexec]
      rfl
    · rw [g4]
      dsimp only
      omega

/-- C1: for every run clockIn at t0, any alternation of startBreak and
resumeWork (possibly ending inside a break), then clockOut at t1, the run
succeeds and the session totals folded by `clock_out` — the accumulator
values it reports in its CLOCK_OUT summary before resetting the fields to
zero — satisfy `accumulatedActiveSeconds + accumulatedBreakSeconds = t1 - t0`;
in particular the scenario clockIn 0, startBreak 100, resumeWork 400,
clockOut 500 yields exactly active = 200 and break = 300. -/
theorem C1_active_break_sum :
    (∀ (tI t0 t1 : Int) (ps : List (Int × Int)) (ob : Option Int),
      ∃ (sPre : Session) (es : List Entry) (sOut : Session),
        execTrace ((t0, Op.clockIn) ::
            (alternation ps ++ (match ob with | none => [] | some b => [(b, Op.takeBreak)])))
          (initSession tI) = .ok (sPre, es) ∧
        clock_out_folded t1 sPre = .ok sOut ∧
        sOut.total_active_time + sOut.total_break_time = t1 - t0) ∧
    (∃ (sPre : Session) (es : List Entry) (sOut : Session),
      execTrace [((0 : Int), Op.clockIn), ((100 : Int), Op.takeBreak), ((400 : Int), Op.resumeWork)]
        (initSession 0) = .ok (sPre, es) ∧
      clock_out_folded 500 sPre = .ok sOut ∧
      sOut.total_active_time = 200 ∧ sOut.total_break_time = 300) := by
  constructor
  · intro tI t0 t1 ps ob
    have hCI : stepOp Op.clockIn t0 (initSession tI) =
        .ok ((clock_in t0 (initSession tI)).1, [⟨"CLOCK_IN", "Started work session"⟩]) := rfl
    obtain ⟨s2, es, c2, hexec, g1, g2, g3, g4⟩ :=
      alternation_exec ps (clock_in t0 (initSession tI)).1 t0 rfl rfl rfl
    have hg : s2.total_active_time + s2.total_break_time - c2 = 0 + 0 - t0 := g4
    cases ob with
    | none =>
      refine ⟨s2, [⟨"CLOCK_IN", "Started work session"⟩] ++ es,
        { s2 with total_active_time := s2.total_active_time + (t1 - c2) }, ?_, ?_, ?_⟩
      · rw [List.append_nil, execTrace_cons_ok hCI, hexec]
      · simp [clock_out_folded, g2, g3]
      · dsimp only
        omega
    | some b =>
      have hTB2 : take_break b s2 = .ok ({ s2 with is_on_break := true, break_start_time := some b, total_active_time := s2.total_active_time + (b - c2) }, [⟨"BREAK_START", "Started break"⟩]) := by
        simp [take_break, g2, g3]
      have hsingle : execTrace [(b, Op.takeBreak)] s2 =
          .ok ({ s2 with is_on_break := true, break_start_time := some b, total_active_time := s2.total_active_time + (b - c2) }, [⟨"BREAK_START", "Started break"⟩]) := by
        rw [execTrace_cons_ok (show stepOp Op.takeBreak b s2 = _ from hTB2)]
        rfl
      refine ⟨{ s2 with is_on_break := true, break_start_time := some b, total_active_time := s2.total_active_time + (b - c2) },
        [⟨"CLOCK_IN", "Started work session"⟩] ++ (es ++ [⟨"BREAK_START", "Started break"⟩]),
        { s2 with is_on_break := true, break_start_time := some b, total_active_time := s2.total_active_time + (b - c2), total_break_time := s2.total_break_time + (t1 - b) },
        ?_, ?_, ?_⟩
      · rw [execTrace_cons_ok hCI, execTrace_append_ok hexec, hsingle]
      · simp [clock_out_folded]
      · dsimp only
        omega
  · exact ⟨sampleResumed,
      [⟨"CLOCK_IN", "Started work session"⟩, ⟨"BREAK_START", "Started break"⟩,
        ⟨"BREAK_END", "Resumed work (break: 5m)"⟩],
      { sampleResumed with total_active_time := 200 }, rfl, rfl, rfl, rfl⟩
